import Mathlib

/-!
Verification of the download-queue orchestration of a menu-driven
video/audio downloader (`tiktok.py`).

The Python program is embedded shallowly:

* Python strings are Lean `String`s; Python string truthiness (`""` is
  falsy) is `truthyStr`; `str.lstrip("@")` is `lstripAt`;
  `str.startswith(p)` is `pyStartswith`; `str.isdigit()` is `isPyDigits`;
  `int(s)` on a stripped string is `pyInt`.
* The media-fetch collaborator (`yt_dlp.YoutubeDL.extract_info`) is an
  oracle `fetch : String → Option Info`: `none` means the call raised an
  exception, `some info` is the returned value.  `Info` covers the result
  shapes the listing resolver distinguishes: a non-dict value, or a dict
  with an optional `entries` list and an optional `id` field.
* Per-item `ydl.download` calls are an oracle `dl : String → Bool`
  (`false` means the call raised).
* Interactive `input()` lines are passed in as explicit arguments.
* Filesystem side effects (`os.makedirs`, output templates) and printing
  of progress are not part of the state the claims quantify over; printed
  operator messages of the queue actions are modelled as a `List String`.
-/

namespace Tiktok

/-- Python `s.lstrip("@")`: drop every leading `'@'` character. -/
def lstripAt (s : String) : String :=
  String.mk (s.data.dropWhile (fun c => c = '@'))

/-- Python `s.strip()`: drop leading and trailing whitespace. -/
def pyStrip (s : String) : String :=
  String.mk
    (((s.data.dropWhile Char.isWhitespace).reverse.dropWhile
        Char.isWhitespace).reverse)

/-- Python truthiness of an optional string value: `None` and `""` are
falsy; a non-empty string is truthy (and is the value kept by `or`). -/
def truthyStr : Option String → Option String
  | some s => if s = "" then none else some s
  | none => none

/-- Python `s.startswith(p)`. -/
def pyStartswith (s p : String) : Bool :=
  p.data.isPrefixOf s.data

/-- Value of a digit string (callers guarantee every char is a digit). -/
def digitsToNat (cs : List Char) : Nat :=
  cs.foldl (fun a c => a * 10 + (c.toNat - 48)) 0

/-- Python `s.isdigit()`: non-empty and all characters are digits. -/
def isPyDigits (s : String) : Bool :=
  !s.data.isEmpty && s.data.all Char.isDigit

/-- Python `int(s)` on an already-stripped string: optional sign followed
by at least one digit; any other shape raises `ValueError` (= `none`). -/
def pyInt (s : String) : Option Int :=
  match s.data with
  | [] => none
  | '-' :: rest =>
      if !rest.isEmpty && rest.all Char.isDigit then
        some (-(digitsToNat rest : Int))
      else none
  | '+' :: rest =>
      if !rest.isEmpty && rest.all Char.isDigit then
        some ((digitsToNat rest : Int))
      else none
  | cs =>
      if cs.all Char.isDigit then some ((digitsToNat cs : Int)) else none

/-- `max(1, min(n, total))` — the clamp of `download_user_videos`. -/
def clamp (n : Int) (total : Nat) : Int :=
  max 1 (min n (total : Int))

/-- One element of the collaborator's flat listing: either not a dict
(skipped by the `isinstance` guard) or a dict whose `id`, `url` and
`webpage_url` fields may each be absent or an arbitrary string. -/
inductive Entry where
  | nonDict
  | mk (id url webpage_url : Option String)
deriving DecidableEq

/-- Result value of `extract_info` as `get_tiktok_videos` inspects it:
not a dict, or a dict with an optional `entries` list and `id` field. -/
inductive Info where
  | nonDict
  | dict (entries : Option (List Entry)) (id : Option String)
deriving DecidableEq

/-- The canonical profile URL `https://www.tiktok.com/@<handle>` built
from the normalized handle. -/
def profileUrl (username : String) : String :=
  "https://www.tiktok.com/@" ++ lstripAt username

/-- Python `e.get("id") or e.get("url") or e.get("webpage_url")`: the
first truthy value of the three fields, `none` when all are falsy. -/
def firstTruthy (i u w : Option String) : Option String :=
  match truthyStr i with
  | some v => some v
  | none =>
      match truthyStr u with
      | some v => some v
      | none => truthyStr w

/-- Loop body of the flat-listing branch of `get_tiktok_videos`:
`vid_id = e.get("id") or e.get("url") or e.get("webpage_url")`, skip a
non-dict entry or a falsy `vid_id`, keep `vid_id` verbatim when it starts
with `"http"` and otherwise synthesize
`https://www.tiktok.com/@<handle>/video/<vid_id>`. -/
def entryIdent (username : String) : Entry → Option String
  | .nonDict => none
  | .mk i u w =>
      match firstTruthy i u w with
      | none => none
      | some v =>
          some (if pyStartswith v "http" then v
                else "https://www.tiktok.com/@" ++ username ++ "/video/" ++ v)

/-- `get_tiktok_videos(username)`: strip the handle, call the collaborator
on the profile URL; a raised exception yields `[]`; a falsy `entries`
value falls back to the single-item `id` (when truthy) or `[]`; a
non-empty `entries` list is mapped through `entryIdent`. -/
def get_tiktok_videos (fetch : String → Option Info) (username0 : String) :
    List String :=
  let username := lstripAt username0
  match fetch (profileUrl username0) with
  | none => []
  | some info =>
      let entries : Option (List Entry) :=
        match info with
        | .nonDict => none
        | .dict es _ => es
      match entries with
      | none | some [] =>
          (match info with
           | .nonDict => []
           | .dict _ i =>
               match truthyStr i with
               | some v =>
                   ["https://www.tiktok.com/@" ++ username ++ "/video/" ++ v]
               | none => [])
      | some (e :: rest) => (e :: rest).filterMap (entryIdent username)

/-- Interactive count resolution of `download_user_videos` when no count
is supplied: empty input defaults to `total` (then clamped); numeric
input is clamped; `int(...)` raising `ValueError` sets `n = total`. -/
def interactiveCount (rawInput : String) (total : Nat) : Int :=
  let raw := pyStrip rawInput
  if raw = "" then clamp (total : Int) total
  else
    match pyInt raw with
    | some n => clamp n total
    | none => (total : Int)

/-- The count `n` actually used: the explicit-count clamp when a count is
supplied, the interactive resolution otherwise. -/
def chosenCount (count : Option Int) (raw : String) (total : Nat) : Int :=
  match count with
  | some c => clamp c total
  | none => interactiveCount raw total

/-- The per-item loop of `download_user_videos`: each `ydl.download([url])`
is tried; an exception (`dl url = false`) is caught and the loop
`continue`s, so every url is processed in order. The result records each
attempted url with its outcome. -/
def downloadLoop (dl : String → Bool) : List String → List (String × Bool)
  | [] => []
  | u :: rest => (u, dl u) :: downloadLoop dl rest

/-- Observable outcome of `download_user_videos`: early return with "No
videos found." (no download attempted), or a run with the chosen count
and the attempted urls with their outcomes. -/
inductive DUVResult where
  | noVideos
  | ran (n : Int) (attempts : List (String × Bool))
deriving DecidableEq

/-- `download_user_videos(username, count)`: strip the handle, resolve the
listing, return early when it is empty, clamp the requested count into
`[1, total]`, truncate to the first `n` urls and run the download loop.
(`n ≥ 1` holds in every branch, so `urls[:n]` is `List.take n.toNat`.) -/
def download_user_videos (fetch : String → Option Info) (dl : String → Bool)
    (count : Option Int) (raw : String) (username0 : String) : DUVResult :=
  let username := lstripAt username0
  let urls := get_tiktok_videos fetch username
  if urls = [] then .noVideos
  else
    let total := urls.length
    let n := chosenCount count raw total
    let to_download := urls.take n.toNat
    .ran n (downloadLoop dl to_download)

/-- Menu option 1: `u = input(...).strip().lstrip("@")`; a truthy result
is appended to `usernames` with an "Added" message, otherwise nothing
happens. Returns the new queue and the printed messages. -/
def addAction (usernames : List String) (rawInput : String) :
    List String × List String :=
  let u := lstripAt (pyStrip rawInput)
  if u = "" then (usernames, [])
  else (usernames ++ [u], ["Added: " ++ u])

/-- Menu option 2: on an empty queue print "No usernames to remove.";
otherwise read the index, and only when `idx.isdigit()` holds and
`1 <= int(idx) <= len(usernames)` pop the element at `int(idx) - 1` with a
"Removed" message.  Any other index leaves the queue unchanged and prints
nothing. -/
def removeAction (usernames : List String) (idxInput : String) :
    List String × List String :=
  if usernames = [] then (usernames, ["No usernames to remove."])
  else
    let idx := pyStrip idxInput
    if isPyDigits idx then
      let v := digitsToNat idx.data
      if 1 ≤ v ∧ v ≤ usernames.length then
        (usernames.take (v - 1) ++ usernames.drop v,
         ["Removed: " ++ (usernames.getD (v - 1) "")])
      else (usernames, [])
    else (usernames, [])

/-- Menu option 4: `usernames.clear()` — the queue becomes empty. -/
def clearAction (_usernames : List String) : List String × List String :=
  ([], ["Cleared usernames."])

/-- Menu option 3: with an empty queue only a warning is printed;
otherwise `for user in list(usernames): download_user_videos(user)` runs
over a snapshot copy, each call prompting interactively (`raws i` is the
operator's count input for the i-th user).  The queue itself is not
touched. -/
def batchAction (fetch : String → Option Info) (dl : String → Bool)
    (raws : Nat → String) (usernames : List String) :
    List String × List DUVResult :=
  if usernames.isEmpty then (usernames, [])
  else
    (usernames,
     usernames.enum.map (fun p => download_user_videos fetch dl none (raws p.1) p.2))

/-!  Model of the per-entry loops of `download_custom_link` and
`download_audio_only`.  Here entries may be arbitrarily shaped Python
values: `None`, some other non-dict value (with its truthiness), or a
dict given by its key/value pairs. -/

/-- A Python value appearing as one element of the `entries` list. -/
inductive PyEntry where
  | pynone
  | nonDict (truthy : Bool)
  | pdict (fields : List (String × String))
deriving DecidableEq

/-- Python `d.get(k)` on a dict given as key/value pairs. -/
def pyGet (fields : List (String × String)) (k : String) : Option String :=
  match fields.find? (fun p => p.1 == k) with
  | some p => some p.2
  | none => none

/-- `if entry and entry.get("webpage_url"): ydl.download(...)` for one
entry: a falsy entry (`None`, a falsy non-dict, an empty dict) is skipped;
a dict without a truthy `webpage_url` is skipped; a dict with one yields
the url to download; a truthy non-dict raises `AttributeError` at
`entry.get`. -/
def entryStep (e : PyEntry) : Except String (Option String) :=
  match e with
  | .pynone => .ok none
  | .nonDict t => if t then .error "AttributeError" else .ok none
  | .pdict fields =>
      if fields.isEmpty then .ok none
      else
        match truthyStr (pyGet fields "webpage_url") with
        | some v => .ok (some v)
        | none => .ok none

/-- The `for entry in entries:` loop: dispatched urls accumulate until an
entry raises, which aborts the loop (the exception escapes to the
enclosing `try`); the Bool records whether the loop raised. -/
def entriesLoop : List PyEntry → List String × Bool
  | [] => ([], false)
  | e :: rest =>
      match entryStep e with
      | .error _ => ([], true)
      | .ok none => entriesLoop rest
      | .ok (some v) =>
          let r := entriesLoop rest
          (v :: r.1, r.2)

/-- The value bound to `entries` when the key is present: a list, or a
non-iterable value (e.g. `None`) over which the `for` loop raises. -/
inductive EntriesVal where
  | isList (l : List PyEntry)
  | notIterable
deriving DecidableEq

/-- Result of `extract_info` as the ad hoc downloaders inspect it:
`None` (over which `"entries" in result` raises `TypeError`), or a dict
with an optional `entries` value and its own key/value pairs. -/
inductive ExtractResult where
  | pynone
  | pdict (entries : Option EntriesVal) (fields : List (String × String))
deriving DecidableEq

/-- `entries = result["entries"] if "entries" in result else [result]`,
together with the places where this line or the subsequent `for` raises. -/
def resolveEntries (res : ExtractResult) : Except String (List PyEntry) :=
  match res with
  | .pynone => .error "TypeError"
  | .pdict (some (.isList l)) _ => .ok l
  | .pdict (some .notIterable) _ => .error "TypeError"
  | .pdict none fields => .ok [.pdict fields]

/-- `download_custom_link(url)`: the whole body sits in one
`try/except Exception`.  Returns the urls dispatched to `ydl.download`
(in order) and whether the body raised (printing "Failed" instead of
"Saved"). -/
def download_custom_link (url : String)
    (fetch : String → Option ExtractResult) : List String × Bool :=
  match fetch url with
  | none => ([], true)
  | some res =>
      match resolveEntries res with
      | .error _ => ([], true)
      | .ok entries => entriesLoop entries

/-- `download_audio_only(url)`: identical control flow to
`download_custom_link` (the two differ only in the passthrough
`ydl_opts`, which the model does not inspect). -/
def download_audio_only (url : String)
    (fetch : String → Option ExtractResult) : List String × Bool :=
  match fetch url with
  | none => ([], true)
  | some res =>
      match resolveEntries res with
      | .error _ => ([], true)
      | .ok entries => entriesLoop entries

/-- An entry shape over which the loop body cannot raise: anything except
a truthy non-dict value. -/
def entrySafe : PyEntry → Bool
  | .nonDict true => false
  | _ => true

/-!  Concrete collaborator instances used to exercise the theorems. -/

/-- A collaborator whose `extract_info` always raises. -/
def fetchRaises : String → Option Info := fun _ => none

/-- A collaborator returning a dict with neither entries nor id. -/
def fetchBare : String → Option Info := fun _ => some (.dict none none)

/-- A flat listing of three bare ids. -/
def fetchThree : String → Option Info := fun _ =>
  some (.dict (some [.mk (some "1") none none, .mk (some "2") none none,
                     .mk (some "3") none none]) none)

/-- A flat listing of five bare ids. -/
def fetchFive : String → Option Info := fun _ =>
  some (.dict (some [.mk (some "1") none none, .mk (some "2") none none,
                     .mk (some "3") none none, .mk (some "4") none none,
                     .mk (some "5") none none]) none)

/-- A flat listing with one entry that carries both a bare `id` and an
absolute `url`. -/
def fetchMixed : String → Option Info := fun _ =>
  some (.dict (some [.mk (some "123") (some "https://example.com/v") none]) none)

/-- A per-item downloader that always succeeds. -/
def dlTrue : String → Bool := fun _ => true

/-- A per-item downloader that raises exactly on the third of the five
urls listed by `fetchFive` for handle `user`. -/
def dlFailThird : String → Bool :=
  fun u => !(u == "https://www.tiktok.com/@user/video/3")

/-- An ad hoc `extract_info` result whose entries list holds a truthy
non-dict value followed by a well-formed dict entry. -/
def fetchBadEntry : String → Option ExtractResult := fun _ =>
  some (.pdict (some (.isList
    [.nonDict true, .pdict [("webpage_url", "https://x")]])) [])

/-- An ad hoc `extract_info` result without an `entries` key. -/
def fetchNoEntriesKey : String → Option ExtractResult := fun _ =>
  some (.pdict none [("webpage_url", "https://y")])

/-!  Helper lemmas. -/

theorem lstripAt_idem (s : String) : lstripAt (lstripAt s) = lstripAt s := by
  show String.mk (List.dropWhile _ (List.dropWhile _ s.data)) = _
  rw [List.dropWhile_idempotent]
  rfl

theorem profileUrl_lstrip (u : String) : profileUrl (lstripAt u) = profileUrl u := by
  unfold profileUrl
  rw [lstripAt_idem]

theorem get_tiktok_videos_lstrip (fetch : String → Option Info) (u : String) :
    get_tiktok_videos fetch (lstripAt u) = get_tiktok_videos fetch u := by
  unfold get_tiktok_videos
  rw [profileUrl_lstrip, lstripAt_idem]

theorem one_le_clamp (n : Int) (t : Nat) : 1 ≤ clamp n t :=
  le_max_left 1 _

theorem clamp_le_total (n : Int) (t : Nat) (h : 1 ≤ t) : clamp n t ≤ (t : Int) :=
  max_le (by exact_mod_cast h) (min_le_right _ _)

theorem interactiveCount_bounds (raw : String) (t : Nat) (h : 1 ≤ t) :
    1 ≤ interactiveCount raw t ∧ interactiveCount raw t ≤ (t : Int) := by
  unfold interactiveCount
  dsimp only
  split
  · exact ⟨one_le_clamp _ _, clamp_le_total _ _ h⟩
  · cases pyInt (pyStrip raw) with
    | some n => exact ⟨one_le_clamp _ _, clamp_le_total _ _ h⟩
    | none =>
        refine ⟨?_, ?_⟩
        · show (1 : Int) ≤ (t : Int)
          exact_mod_cast h
        · show (t : Int) ≤ (t : Int)
          exact le_refl _

theorem chosenCount_bounds (count : Option Int) (raw : String) (t : Nat)
    (h : 1 ≤ t) :
    1 ≤ chosenCount count raw t ∧ chosenCount count raw t ≤ (t : Int) := by
  cases count with
  | none => exact interactiveCount_bounds raw t h
  | some c => exact ⟨one_le_clamp _ _, clamp_le_total _ _ h⟩

theorem downloadLoop_map_fst (dl : String → Bool) (l : List String) :
    (downloadLoop dl l).map Prod.fst = l := by
  induction l with
  | nil => rfl
  | cons u rest ih => simp [downloadLoop, ih]

/-- Closed form of `download_user_videos` in terms of the listing for the
un-stripped handle. -/
theorem download_user_videos_eq (fetch : String → Option Info)
    (dl : String → Bool) (count : Option Int) (raw username : String) :
    download_user_videos fetch dl count raw username =
      if get_tiktok_videos fetch username = [] then DUVResult.noVideos
      else
        DUVResult.ran
          (chosenCount count raw (get_tiktok_videos fetch username).length)
          (downloadLoop dl ((get_tiktok_videos fetch username).take
            (chosenCount count raw
              (get_tiktok_videos fetch username).length).toNat)) := by
  unfold download_user_videos
  dsimp only
  rw [get_tiktok_videos_lstrip]

theorem pyStartswith_append (s t : String)
    (h : pyStartswith s "http" = true) :
    pyStartswith (s ++ t) "http" = true := by
  unfold pyStartswith at h ⊢
  rw [String.data_append]
  rw [List.isPrefixOf_iff_prefix] at h ⊢
  exact h.trans (List.prefix_append _ _)

theorem synth_pyStartswith (u v : String) :
    pyStartswith ("https://www.tiktok.com/@" ++ u ++ "/video/" ++ v)
      "http" = true := by
  apply pyStartswith_append
  apply pyStartswith_append
  apply pyStartswith_append
  decide

theorem entryIdent_startsWith (username : String) (e : Entry) (x : String)
    (h : entryIdent username e = some x) : pyStartswith x "http" = true := by
  cases e with
  | nonDict => simp [entryIdent] at h
  | mk i u w =>
      have h2 : (match firstTruthy i u w with
          | none => none
          | some v =>
              some (if pyStartswith v "http" then v
                    else "https://www.tiktok.com/@" ++ username
                          ++ "/video/" ++ v)) = some x := h
      cases hv : firstTruthy i u w with
      | none => rw [hv] at h2; exact absurd h2 (by simp)
      | some v =>
          rw [hv] at h2
          simp only [Option.some.injEq] at h2
          subst h2
          by_cases hs : pyStartswith v "http" = true
          · rw [if_pos hs]; exact hs
          · rw [if_neg hs]; exact synth_pyStartswith _ _

theorem entryStep_ok_of_safe (e : PyEntry) (he : entrySafe e = true) :
    ∃ o, entryStep e = Except.ok o := by
  cases e with
  | pynone => exact ⟨none, rfl⟩
  | nonDict t =>
      cases t with
      | false => exact ⟨none, rfl⟩
      | true => simp [entrySafe] at he
  | pdict fields =>
      cases hf : fields.isEmpty with
      | true => exact ⟨none, by unfold entryStep; simp [hf]⟩
      | false =>
          cases hg : truthyStr (pyGet fields "webpage_url") with
          | none => exact ⟨none, by unfold entryStep; simp [hf, hg]⟩
          | some v => exact ⟨some v, by unfold entryStep; simp [hf, hg]⟩

theorem entriesLoop_cons_skip (e : PyEntry) (rest : List PyEntry)
    (h : entryStep e = Except.ok none) :
    entriesLoop (e :: rest) = entriesLoop rest := by
  have step : entriesLoop (e :: rest)
      = (match entryStep e with
         | Except.error _ => (([] : List String), true)
         | Except.ok none => entriesLoop rest
         | Except.ok (some v) =>
             (v :: (entriesLoop rest).1, (entriesLoop rest).2)) := rfl
  rw [step, h]

theorem entriesLoop_cons_dl (e : PyEntry) (rest : List PyEntry) (v : String)
    (h : entryStep e = Except.ok (some v)) :
    entriesLoop (e :: rest)
      = (v :: (entriesLoop rest).1, (entriesLoop rest).2) := by
  have step : entriesLoop (e :: rest)
      = (match entryStep e with
         | Except.error _ => (([] : List String), true)
         | Except.ok none => entriesLoop rest
         | Except.ok (some v) =>
             (v :: (entriesLoop rest).1, (entriesLoop rest).2)) := rfl
  rw [step, h]

theorem entriesLoop_safe (l : List PyEntry)
    (h : ∀ e ∈ l, entrySafe e = true) : (entriesLoop l).2 = false := by
  induction l with
  | nil => rfl
  | cons e rest ih =>
      have he := h e (List.mem_cons_self e rest)
      have hr := ih (fun x hx => h x (List.mem_cons_of_mem e hx))
      obtain ⟨o, ho⟩ := entryStep_ok_of_safe e he
      cases o with
      | none => rw [entriesLoop_cons_skip e rest ho]; exact hr
      | some v => rw [entriesLoop_cons_dl e rest v ho]; exact hr

theorem take_append_drop_last (q : List String) (u : String) :
    (q ++ [u]).take q.length ++ (q ++ [u]).drop (q.length + 1) = q := by
  induction q with
  | nil => rfl
  | cons a t ih => simp [ih]

/-!  Claim theorems. -/

/-- Claim C1: for every requested count (caller-supplied or entered
interactively) and every listing of length L, when L ≥ 1 the count used
by `download_user_videos` lies in [1, L] and, for a caller-supplied
count N, equals max(1, min(N, L)); when the listing is empty no download
is attempted and the function returns at once. -/
theorem claim1_clamped_count (fetch : String → Option Info)
    (dl : String → Bool) (count : Option Int) (raw username : String) :
    (get_tiktok_videos fetch username = [] →
       download_user_videos fetch dl count raw username = DUVResult.noVideos) ∧
    (get_tiktok_videos fetch username ≠ [] →
       download_user_videos fetch dl count raw username
           = DUVResult.ran
               (chosenCount count raw (get_tiktok_videos fetch username).length)
               (downloadLoop dl ((get_tiktok_videos fetch username).take
                 (chosenCount count raw
                   (get_tiktok_videos fetch username).length).toNat)) ∧
       1 ≤ chosenCount count raw (get_tiktok_videos fetch username).length ∧
       chosenCount count raw (get_tiktok_videos fetch username).length
           ≤ ((get_tiktok_videos fetch username).length : Int) ∧
       ∀ c, count = some c →
         chosenCount count raw (get_tiktok_videos fetch username).length
             = max 1 (min c ((get_tiktok_videos fetch username).length : Int))) := by
  constructor
  · intro h
    rw [download_user_videos_eq, if_pos h]
  · intro h
    have hlen : 1 ≤ (get_tiktok_videos fetch username).length :=
      List.length_pos.mpr h
    refine ⟨by rw [download_user_videos_eq, if_neg h], ?_, ?_, ?_⟩
    · exact (chosenCount_bounds _ _ _ hlen).1
    · exact (chosenCount_bounds _ _ _ hlen).2
    · intro c hc
      subst hc
      rfl

/-- Witness for C1: a listing that raises yields an immediate return; on
a 5-item listing a requested count of 99 is clamped into [1, 5]. -/
theorem claim1_clamped_count_witness :
    download_user_videos fetchRaises dlTrue (some 3) "" "user"
        = DUVResult.noVideos ∧
    1 ≤ chosenCount (some 99) "" (get_tiktok_videos fetchFive "user").length ∧
    chosenCount (some 99) "" (get_tiktok_videos fetchFive "user").length
        ≤ ((get_tiktok_videos fetchFive "user").length : Int) :=
  ⟨(claim1_clamped_count fetchRaises dlTrue (some 3) "" "user").1 rfl,
   ((claim1_clamped_count fetchFive dlTrue (some 99) "" "user").2
     (by decide)).2.1,
   ((claim1_clamped_count fetchFive dlTrue (some 99) "" "user").2
     (by decide)).2.2.1⟩

/-- Claim C2: whenever `download_user_videos` runs a batch, the attempted
identifiers are exactly the first n elements of the listing, in their
original order. -/
theorem claim2_prefix_in_order (fetch : String → Option Info)
    (dl : String → Bool) (count : Option Int) (raw username : String)
    (n : Int) (res : List (String × Bool))
    (h : download_user_videos fetch dl count raw username
           = DUVResult.ran n res) :
    res.map Prod.fst = (get_tiktok_videos fetch username).take n.toNat := by
  rw [download_user_videos_eq] at h
  by_cases he : get_tiktok_videos fetch username = []
  · rw [if_pos he] at h
    exact absurd h (by simp)
  · rw [if_neg he] at h
    injection h with h1 h2
    subst h1
    subst h2
    exact downloadLoop_map_fst _ _

/-- Witness for C2: a 3-item listing with requested count 2 attempts
exactly the first two identifiers in order. -/
theorem claim2_prefix_in_order_witness :
    [("https://www.tiktok.com/@user/video/1", true),
     ("https://www.tiktok.com/@user/video/2", true)].map Prod.fst
      = (get_tiktok_videos fetchThree "user").take ((2 : Int)).toNat :=
  claim2_prefix_in_order fetchThree dlTrue (some 2) "" "user" 2
    [("https://www.tiktok.com/@user/video/1", true),
     ("https://www.tiktok.com/@user/video/2", true)] (by decide)

/-- Claim C3: the per-item loop of `download_user_videos` attempts every
selected identifier in order no matter which single-item fetches raise
(each failure is caught and skipped); concretely, on the 5-item listing
where the fetch of item 3 fails, items 1, 2, 4, 5 are still attempted
and the loop does not abort early. -/
theorem claim3_fault_isolation :
    (∀ (dl : String → Bool) (l : List String),
        (downloadLoop dl l).map Prod.fst = l) ∧
    download_user_videos fetchFive dlFailThird none "" "user"
      = DUVResult.ran 5
          [("https://www.tiktok.com/@user/video/1", true),
           ("https://www.tiktok.com/@user/video/2", true),
           ("https://www.tiktok.com/@user/video/3", false),
           ("https://www.tiktok.com/@user/video/4", true),
           ("https://www.tiktok.com/@user/video/5", true)] :=
  ⟨downloadLoop_map_fst, by decide⟩

/-- Claim C4: `get_tiktok_videos` never propagates a collaborator error:
a raised `extract_info`, a non-dict result, or a dict with no truthy
entries and no truthy single-item id all yield the empty listing. -/
theorem claim4_listing_never_raises (fetch : String → Option Info)
    (username : String) :
    (fetch (profileUrl username) = none →
       get_tiktok_videos fetch username = []) ∧
    (fetch (profileUrl username) = some Info.nonDict →
       get_tiktok_videos fetch username = []) ∧
    (∀ es i, fetch (profileUrl username) = some (Info.dict es i) →
       (es = none ∨ es = some []) → truthyStr i = none →
       get_tiktok_videos fetch username = []) := by
  refine ⟨?_, ?_, ?_⟩
  · intro h
    unfold get_tiktok_videos
    rw [h]
  · intro h
    unfold get_tiktok_videos
    rw [h]
  · intro es i h hes hi
    unfold get_tiktok_videos
    rw [h]
    rcases hes with hes | hes <;> subst hes <;> simp [hi]

/-- Witness for C4: a collaborator that raises, and one that returns a
bare dict, both yield the empty listing. -/
theorem claim4_listing_never_raises_witness :
    get_tiktok_videos fetchRaises "alice" = [] ∧
    get_tiktok_videos fetchBare "alice" = [] :=
  ⟨(claim4_listing_never_raises fetchRaises "alice").1 rfl,
   (claim4_listing_never_raises fetchBare "alice").2.2 none none rfl
     (Or.inl rfl) rfl⟩

/-- Claim C5 as stated is false: for an entry carrying both the bare id
"123" and the absolute URL https://example.com/v, the derived identifier
is synthesized from the id (the `id` field is preferred), not the
carried absolute URL. -/
theorem claim5_url_preference_counterexample :
    get_tiktok_videos fetchMixed "user"
        = ["https://www.tiktok.com/@user/video/123"] ∧
    "https://example.com/v" ∉ get_tiktok_videos fetchMixed "user" := by
  constructor
  · rfl
  · decide

/-- Claim C5 (amended): the identifier is derived from the first truthy
of the entry's `id`, `url`, `webpage_url` fields — kept verbatim when it
starts with "http", otherwise synthesized from the handle — and every
identifier returned by `get_tiktok_videos` starts with "http". -/
theorem claim5_amended_http_invariant (fetch : String → Option Info)
    (username : String) :
    (∀ x ∈ get_tiktok_videos fetch username, pyStartswith x "http" = true) ∧
    (∀ i u w v, fetch (profileUrl username)
          = some (Info.dict (some [Entry.mk i u w]) none) →
       firstTruthy i u w = some v →
       get_tiktok_videos fetch username
           = [if pyStartswith v "http" then v
              else "https://www.tiktok.com/@" ++ lstripAt username
                    ++ "/video/" ++ v]) := by
  constructor
  · intro x hx
    unfold get_tiktok_videos at hx
    cases hf : fetch (profileUrl username) with
    | none =>
        rw [hf] at hx
        exact absurd hx (by simp)
    | some info =>
        rw [hf] at hx
        cases info with
        | nonDict => exact absurd hx (by simp)
        | dict es i =>
            cases es with
            | none =>
                dsimp only at hx
                cases hti : truthyStr i with
                | none =>
                    rw [hti] at hx
                    exact absurd hx (by simp)
                | some v =>
                    rw [hti] at hx
                    simp only [List.mem_singleton] at hx
                    subst hx
                    exact synth_pyStartswith _ _
            | some es2 =>
                cases es2 with
                | nil =>
                    dsimp only at hx
                    cases hti : truthyStr i with
                    | none =>
                        rw [hti] at hx
                        exact absurd hx (by simp)
                    | some v =>
                        rw [hti] at hx
                        simp only [List.mem_singleton] at hx
                        subst hx
                        exact synth_pyStartswith _ _
                | cons e rest =>
                    dsimp only at hx
                    simp only [List.mem_filterMap] at hx
                    obtain ⟨a, _, hident⟩ := hx
                    exact entryIdent_startsWith _ _ _ hident
  · intro i u w v hf hv
    unfold get_tiktok_videos
    rw [hf]
    show List.filterMap (entryIdent (lstripAt username)) [Entry.mk i u w] = _
    simp only [List.filterMap, entryIdent, hv]

/-- Witness for the amended C5: the mixed entry of `fetchMixed` resolves
to the id-synthesized URL, which starts with "http". -/
theorem claim5_amended_witness :
    pyStartswith "https://www.tiktok.com/@user/video/123" "http" = true ∧
    get_tiktok_videos fetchMixed "user"
        = ["https://www.tiktok.com/@user/video/123"] := by
  constructor
  · exact (claim5_amended_http_invariant fetchMixed "user").1
      "https://www.tiktok.com/@user/video/123" (by decide)
  · exact ((claim5_amended_http_invariant fetchMixed "user").2
      (some "123") (some "https://example.com/v") none "123" rfl rfl).trans
      (by decide)

/-- Claim C6 as stated is false: non-numeric interactive input "abc" is
not re-prompted; the run proceeds at once with the count silently set to
the full listing length (3 of 3 items downloaded). -/
theorem claim6_reprompt_counterexample :
    pyInt "abc" = none ∧
    download_user_videos fetchThree dlTrue none "abc" "user"
      = DUVResult.ran 3
          [("https://www.tiktok.com/@user/video/1", true),
           ("https://www.tiktok.com/@user/video/2", true),
           ("https://www.tiktok.com/@user/video/3", true)] := by
  constructor
  · rfl
  · decide

/-- Claim C6 (amended): with no explicit count, empty operator input
defaults to the full listing length, numeric input is clamped into
[1, L], and non-numeric input is silently mapped to the full listing
length (no re-prompt); the run then uses that count. -/
theorem claim6_amended_interactive_count (fetch : String → Option Info)
    (dl : String → Bool) (raw username : String)
    (h : get_tiktok_videos fetch username ≠ []) :
    (pyStrip raw = "" →
       chosenCount none raw (get_tiktok_videos fetch username).length
         = ((get_tiktok_videos fetch username).length : Int)) ∧
    (pyStrip raw ≠ "" → pyInt (pyStrip raw) = none →
       chosenCount none raw (get_tiktok_videos fetch username).length
         = ((get_tiktok_videos fetch username).length : Int)) ∧
    (∀ m, pyStrip raw ≠ "" → pyInt (pyStrip raw) = some m →
       chosenCount none raw (get_tiktok_videos fetch username).length
         = max 1 (min m ((get_tiktok_videos fetch username).length : Int))) ∧
    download_user_videos fetch dl none raw username
      = DUVResult.ran
          (chosenCount none raw (get_tiktok_videos fetch username).length)
          (downloadLoop dl ((get_tiktok_videos fetch username).take
            (chosenCount none raw
              (get_tiktok_videos fetch username).length).toNat)) := by
  have hlen : 1 ≤ (get_tiktok_videos fetch username).length :=
    List.length_pos.mpr h
  refine ⟨?_, ?_, ?_, by rw [download_user_videos_eq, if_neg h]⟩
  · intro he
    show interactiveCount raw (get_tiktok_videos fetch username).length = _
    unfold interactiveCount
    rw [if_pos he]
    unfold clamp
    rw [min_self]
    exact max_eq_right (by exact_mod_cast hlen)
  · intro he hp
    show interactiveCount raw (get_tiktok_videos fetch username).length = _
    unfold interactiveCount
    rw [if_neg he, hp]
  · intro m he hp
    show interactiveCount raw (get_tiktok_videos fetch username).length = _
    unfold interactiveCount
    rw [if_neg he, hp]
    rfl

/-- Witness for the amended C6: on the 3-item listing, empty input yields
count 3 and the non-numeric input "abc" also yields count 3. -/
theorem claim6_amended_witness :
    chosenCount none "" (get_tiktok_videos fetchThree "user").length
      = ((get_tiktok_videos fetchThree "user").length : Int) ∧
    chosenCount none "abc" (get_tiktok_videos fetchThree "user").length
      = ((get_tiktok_videos fetchThree "user").length : Int) :=
  ⟨(claim6_amended_interactive_count fetchThree dlTrue "" "user"
      (by decide)).1 rfl,
   (claim6_amended_interactive_count fetchThree dlTrue "abc" "user"
      (by decide)).2.1 (by decide) rfl⟩

/-- Claim C7 as stated is false: remove "2" on the 1-element queue leaves
the queue unchanged but prints nothing — no out-of-range report — and a
non-numeric index likewise produces no cancelled report. -/
theorem claim7_report_counterexample :
    removeAction ["alice"] "2" = (["alice"], []) ∧
    removeAction ["alice"] "x" = (["alice"], []) := by
  constructor
  · rfl
  · rfl

/-- Claim C7 (amended): on a non-empty queue, an out-of-range or
non-numeric 1-based index leaves the queue unchanged and is silently
ignored — no message is printed at all. -/
theorem claim7_amended_invalid_index_silent (q : List String)
    (idx : String) (hq : q ≠ [])
    (h : isPyDigits (pyStrip idx) = false ∨
         ¬(1 ≤ digitsToNat (pyStrip idx).data ∧
            digitsToNat (pyStrip idx).data ≤ q.length)) :
    removeAction q idx = (q, []) := by
  unfold removeAction
  rw [if_neg hq]
  rcases h with h | h
  · rw [if_neg (by simp [h])]
  · by_cases hd : isPyDigits (pyStrip idx) = true
    · rw [if_pos hd, if_neg h]
    · rw [if_neg hd]

/-- Witness for the amended C7: the out-of-range index "5" on a 2-element
queue is silently ignored. -/
theorem claim7_amended_witness :
    removeAction ["alice", "bob"] "5" = (["alice", "bob"], []) :=
  claim7_amended_invalid_index_silent ["alice", "bob"] "5" (by decide)
    (Or.inr (by decide))

/-- Claim C8 as stated is false: "@" is a non-empty handle, yet add("@")
is a no-op (it normalizes to the empty string), so the subsequent remove
of the last index deletes a pre-existing element instead of restoring
the queue. -/
theorem claim8_roundtrip_counterexample :
    "@" ≠ "" ∧
    (removeAction (addAction ["alice"] "@").1 "1").1 = [] ∧
    (removeAction (addAction ["alice"] "@").1 "1").1 ≠ ["alice"] := by
  refine ⟨by decide, rfl, by decide⟩

/-- Claim C8 (amended): for a handle whose normalized form (stripped of
whitespace and leading owner markers) is non-empty, add appends the
normalized handle, and removing the last 1-based index restores the
pre-add queue; add on input normalizing to empty is a no-op; clear
always empties the queue. -/
theorem claim8_amended_roundtrip (q : List String) (h s : String)
    (hh : lstripAt (pyStrip h) ≠ "")
    (hs : isPyDigits (pyStrip s) = true)
    (hv : digitsToNat (pyStrip s).data = q.length + 1) :
    (addAction q h).1 = q ++ [lstripAt (pyStrip h)] ∧
    (removeAction (addAction q h).1 s).1 = q ∧
    (clearAction q).1 = [] ∧
    (∀ h0, lstripAt (pyStrip h0) = "" → addAction q h0 = (q, [])) := by
  have hadd : (addAction q h).1 = q ++ [lstripAt (pyStrip h)] := by
    unfold addAction
    rw [if_neg hh]
  refine ⟨hadd, ?_, rfl, ?_⟩
  · rw [hadd]
    unfold removeAction
    rw [if_neg (by simp : ¬(q ++ [lstripAt (pyStrip h)] = []))]
    rw [if_pos hs, hv]
    rw [if_pos (by simp : 1 ≤ q.length + 1 ∧
          q.length + 1 ≤ (q ++ [lstripAt (pyStrip h)]).length)]
    dsimp only
    rw [Nat.add_sub_cancel]
    exact take_append_drop_last q (lstripAt (pyStrip h))
  · intro h0 hh0
    unfold addAction
    rw [if_pos hh0]

/-- Witness for the amended C8: adding " @carol " to a 2-element queue
appends "carol", removing index "3" restores the queue, and clear
empties it. -/
theorem claim8_amended_witness :
    (addAction ["alice", "bob"] " @carol ").1 = ["alice", "bob", "carol"] ∧
    (removeAction (addAction ["alice", "bob"] " @carol ").1 "3").1
        = ["alice", "bob"] ∧
    (clearAction ["alice", "bob"]).1 = [] :=
  ⟨(claim8_amended_roundtrip ["alice", "bob"] " @carol " "3" (by decide)
      (by decide) (by decide)).1,
   (claim8_amended_roundtrip ["alice", "bob"] " @carol " "3" (by decide)
      (by decide) (by decide)).2.1,
   (claim8_amended_roundtrip ["alice", "bob"] " @carol " "3" (by decide)
      (by decide) (by decide)).2.2.1⟩

/-- Claim C9: running the batch download (menu option 3) never changes
the username queue — the queue after the batch equals the queue before,
for every fetch/download behaviour and every interactive input. -/
theorem claim9_batch_frame (fetch : String → Option Info)
    (dl : String → Bool) (raws : Nat → String) (q : List String) :
    (batchAction fetch dl raws q).1 = q := by
  unfold batchAction
  split <;> rfl

/-- Claim C10 as stated is false: a truthy non-dict entry makes
`entry.get` raise inside the loop; the loop aborts into the outer handler
and the following well-formed entry is never downloaded, both for
`download_custom_link` and `download_audio_only`. -/
theorem claim10_totality_counterexample :
    download_custom_link "u" fetchBadEntry = ([], true) ∧
    download_audio_only "u" fetchBadEntry = ([], true) := by
  constructor
  · rfl
  · rfl

/-- Claim C10 (amended): a result without an `entries` key is wrapped as
a single-element list; `None` entries and dict entries without a truthy
`webpage_url` are skipped and the loop is total over such shapes; but a
truthy non-dict entry raises inside the loop (caught only by the
surrounding per-call handler); `download_audio_only` behaves exactly as
`download_custom_link`. -/
theorem claim10_amended_loop (url : String)
    (fetch : String → Option ExtractResult) :
    (∀ fields, fetch url = some (ExtractResult.pdict none fields) →
       download_custom_link url fetch = entriesLoop [PyEntry.pdict fields]) ∧
    (∀ l : List PyEntry, (∀ e ∈ l, entrySafe e = true) →
       (entriesLoop l).2 = false) ∧
    (∀ fields, truthyStr (pyGet fields "webpage_url") = none →
       entryStep (PyEntry.pdict fields) = Except.ok none) ∧
    entryStep PyEntry.pynone = Except.ok none ∧
    download_audio_only url fetch = download_custom_link url fetch := by
  refine ⟨?_, fun l hl => entriesLoop_safe l hl, ?_, rfl, rfl⟩
  · intro fields hf
    unfold download_custom_link
    rw [hf]
    rfl
  · intro fields hf
    unfold entryStep
    dsimp only
    rw [hf]
    split <;> rfl

/-- Witness for the amended C10: a result without an `entries` key is
wrapped and downloaded as a single item, and the loop is total over a
list of `None` and dict entries. -/
theorem claim10_amended_witness :
    download_custom_link "u" fetchNoEntriesKey
        = entriesLoop [PyEntry.pdict [("webpage_url", "https://y")]] ∧
    (entriesLoop [PyEntry.pynone, PyEntry.pdict []]).2 = false :=
  ⟨(claim10_amended_loop "u" fetchNoEntriesKey).1
      [("webpage_url", "https://y")] rfl,
   (claim10_amended_loop "u" fetchNoEntriesKey).2.1
      [PyEntry.pynone, PyEntry.pdict []] (by decide)⟩

end Tiktok
